import Mathlib

/-!
Verification of the organic-predictor repository: a shallow embedding of its
data pipeline (loader, preprocessor, analyzer, Prophet-wrapper postprocessing)
over exact rational arithmetic, together with theorems settling the frozen
claims about it.

Modelling conventions:
- pandas DataFrames become Lean lists of structure values, one structure per
  row schema; column assignments become per-row field updates (all the
  relevant source operations are elementwise).
- Python floats become rationals.  Standard deviations only ever occur inside
  comparisons of the shape abs (x - m) / sqrt v > t, which over the reals is
  equivalent (for v > 0, and degenerately consistent for v = 0) to
  (x - m) ^ 2 > t ^ 2 * v, so variances are kept un-square-rooted; the
  equivalence over the reals is proved where a claim needs it.
- the external Prophet library (fitting, future-dataframe generation,
  cross-validation grids) is out of the spec's scope; a fitted model is
  characterised by its configuration plus the exact data it was fitted on,
  and its numeric output enters as a universally quantified oracle.
- pandas sort_values is an unspecified external sorting routine; it is
  modelled by insertion sort (any sorted permutation is a faithful model of
  the row count and ordering guarantees the claims mention).
-/

namespace OrganicPredictor

/-! Calendar dates.  pandas datetimes are modelled as civil dates; the
numeric key gives exactly the chronological order for civil dates, and the
weekday is computed with the standard congruence (Sakamoto) method,
normalised to the pandas convention Monday = 0 .. Sunday = 6. -/

structure CalDate where
  year : ℕ
  month : ℕ
  day : ℕ
deriving DecidableEq, Repr

def CalDate.key (d : CalDate) : ℕ :=
  d.year * 10000 + d.month * 100 + d.day

def sakamotoOffset : ℕ → ℕ
  | 1 => 0 | 2 => 3 | 3 => 2 | 4 => 5 | 5 => 0 | 6 => 3
  | 7 => 5 | 8 => 1 | 9 => 4 | 10 => 6 | 11 => 2 | 12 => 4
  | _ => 0

/-- Day of week with Sunday = 0, by Sakamoto's congruence method. -/
def CalDate.dayOfWeekSun0 (d : CalDate) : ℕ :=
  let y := if d.month < 3 then d.year - 1 else d.year
  (y + y / 4 - y / 100 + y / 400 + sakamotoOffset d.month + d.day) % 7

/-- Day of week in the pandas convention: Monday = 0 .. Sunday = 6. -/
def CalDate.dayofweek (d : CalDate) : ℕ :=
  (d.dayOfWeekSun0 + 6) % 7

def CalDate.isSaturday (d : CalDate) : Prop := d.dayofweek = 5

def CalDate.isSunday (d : CalDate) : Prop := d.dayofweek = 6

instance (d : CalDate) : Decidable d.isSaturday := by
  unfold CalDate.isSaturday; infer_instance

instance (d : CalDate) : Decidable d.isSunday := by
  unfold CalDate.isSunday; infer_instance

def isLeapYear (y : ℕ) : Bool :=
  (y % 4 == 0 && y % 100 != 0) || (y % 400 == 0)

def daysInMonth (y : ℕ) : ℕ → ℕ
  | 1 => 31 | 2 => if isLeapYear y then 29 else 28
  | 3 => 31 | 4 => 30 | 5 => 31 | 6 => 30 | 7 => 31
  | 8 => 31 | 9 => 30 | 10 => 31 | 11 => 30 | 12 => 31
  | _ => 0

/-! Row schemas.  RawRow is a row of the loaded CSV (the CTR column is a
percentage string in the source; string-to-number parsing is input-layer
work, so the field carries the numeric value that to_numeric extracts after
the trailing percent sign is stripped).  BaseRow is a row of the frame after
process has assigned the canonical columns; ProcRow adds the derived
features of TrafficPreprocessor._add_features.  The week_of_year column of
the source is not carried: no claim mentions it. -/

structure RawRow where
  Date : CalDate
  Clicks : ℚ
  Impressions : ℚ
  CTR : ℚ
  Position : ℚ
deriving DecidableEq, Repr

structure BaseRow where
  Date : CalDate
  Clicks : ℚ
  Impressions : ℚ
  CTR : ℚ
  Position : ℚ
  ds : CalDate
  y : ℚ
  ctr : ℚ
  position : ℚ
deriving DecidableEq, Repr

structure ProcRow extends BaseRow where
  day_of_week : ℕ
  day_of_month : ℕ
  month : ℕ
  quarter : ℕ
  year : ℕ
  is_weekend : ℕ
  is_month_end : ℕ
  is_month_start : ℕ
  clicks_per_impression : ℚ
  position_impact : ℚ
deriving DecidableEq, Repr

/-! Statistics helpers shared by the preprocessor and the analyzer.  Over ℚ
division by zero yields zero; every place this convention is used is one
where the float source produces a NaN that subsequently fails every strict
comparison, which agrees with the zero result failing it too. -/

def mean (l : List ℚ) : ℚ := l.sum / l.length

/-- Sum of squared deviations from the mean. -/
def ssd (l : List ℚ) : ℚ := (l.map (fun x => (x - mean l) ^ 2)).sum

/-- Population variance: the square of the standard deviation used by
scipy.stats.zscore (ddof = 0). -/
def popVar (l : List ℚ) : ℚ := ssd l / l.length

/-- Sample variance: the square of the standard deviation computed by the
pandas std method (ddof = 1). -/
def sampleVar (l : List ℚ) : ℚ := ssd l / (l.length - 1 : ℕ)

/-! TrafficPreprocessor. -/

/-- Elementwise body of TrafficPreprocessor._add_features.  The two
unguarded divisions of the source (clicks_per_impression, position_impact)
are embedded with an explicit division-by-zero error branch: the none result
is the error branch of the total embedding. -/
def addFeaturesRow (r : BaseRow) : Option ProcRow :=
  if r.Impressions = 0 ∨ r.position = 0 then none
  else some
    { toBaseRow := r
      day_of_week := r.ds.dayofweek
      day_of_month := r.ds.day
      month := r.ds.month
      quarter := (r.ds.month - 1) / 3 + 1
      year := r.ds.year
      is_weekend := if 5 ≤ r.ds.dayofweek then 1 else 0
      is_month_end := if r.ds.day = daysInMonth r.ds.year r.ds.month then 1 else 0
      is_month_start := if r.ds.day = 1 then 1 else 0
      clicks_per_impression := r.y / r.Impressions
      position_impact := 1 / r.position }

/-- TrafficPreprocessor._add_features, applied column-wise in the source,
elementwise here; the error branch of any row aborts the whole frame. -/
def add_features : List BaseRow → Option (List ProcRow)
  | [] => some []
  | r :: t =>
    match addFeaturesRow r, add_features t with
    | some r', some t' => some (r' :: t')
    | _, _ => none

/-- The column assignments at the head of TrafficPreprocessor.process. -/
def baseRow (r : RawRow) : BaseRow :=
  { Date := r.Date
    Clicks := r.Clicks
    Impressions := r.Impressions
    CTR := r.CTR
    Position := r.Position
    ds := r.Date
    y := r.Clicks
    ctr := r.CTR / 100
    position := r.Position }

def dsKeyLe (a b : BaseRow) : Prop := a.ds.key ≤ b.ds.key

instance : DecidableRel dsKeyLe := fun a b => by
  unfold dsKeyLe; infer_instance

instance : IsTotal BaseRow dsKeyLe := ⟨fun x y => Nat.le_total x.ds.key y.ds.key⟩

instance : IsTrans BaseRow dsKeyLe := ⟨fun _ _ _ h h' => Nat.le_trans h h'⟩

/-- TrafficPreprocessor.process: assign canonical columns, sort by ds,
derive features. -/
def TrafficPreprocessor.process (df : List RawRow) : Option (List ProcRow) :=
  let df_base := df.map baseRow
  let df_sorted := List.insertionSort dsKeyLe df_base
  add_features df_sorted

/-- TrafficPreprocessor.handle_outliers: flag rows whose absolute z-score
against the pandas sample standard deviation exceeds the threshold.  The
comparison abs (y - m) / std > t of the source is carried in the squared
form (y - m) ^ 2 > t ^ 2 * var. -/
def TrafficPreprocessor.handle_outliers (df : List ProcRow) (z_threshold : ℚ) :
    List (ProcRow × Bool) :=
  let ys := df.map (fun r => r.y)
  df.map (fun r => (r, decide (z_threshold ^ 2 * sampleVar ys < (r.y - mean ys) ^ 2)))

/-! TrafficAnalyzer.  The weekly pattern groups rows by the day name derived
from ds (day names correspond one-to-one to the pandas weekday codes
Monday = 0 .. Sunday = 6, and the day_order list of the source is exactly
that order); the monthly pattern groups by the month column.  A groupby
mean over a key value that is absent from the frame is a NaN after the
reindex step, modelled as none. -/

/-- Mean of the y column over the rows with the given key value: one entry
of a pandas groupby mean, none when the group is empty. -/
def groupMeanBy (key : ProcRow → ℕ) (df : List ProcRow) (k : ℕ) : Option ℚ :=
  let g := (df.filter (fun r => key r = k)).map (fun r => r.y)
  if g = [] then none else some (mean g)

/-- The NaN-skipping mean of a pandas Series: the mean of the entries that
are present. -/
def nanmean (l : List (Option ℚ)) : ℚ := mean l.reduceOption

/-- The day_order list of the source, as pandas weekday codes. -/
def day_order : List ℕ := [0, 1, 2, 3, 4, 5, 6]

structure WeeklyPatternRow where
  day : ℕ
  average_clicks : Option ℚ
  relative_strength : Option ℚ
deriving DecidableEq, Repr

/-- TrafficAnalyzer._analyze_weekly_pattern.  weekly_avg is the groupby
mean reindexed over the seven day names; the divisor of relative_strength
is the NaN-skipping mean of that reindexed series. -/
def TrafficAnalyzer.analyze_weekly_pattern (df : List ProcRow) : List WeeklyPatternRow :=
  let weekly_avg := groupMeanBy (fun r => r.ds.dayofweek) df
  let m := nanmean (day_order.map weekly_avg)
  day_order.map (fun w =>
    { day := w
      average_clicks := weekly_avg w
      relative_strength := (weekly_avg w).map (fun a => (a / m - 1) * 100) })

structure MonthlyPatternRow where
  month : ℕ
  average_clicks : ℚ
  relative_strength : ℚ
deriving DecidableEq, Repr

/-- TrafficAnalyzer._analyze_monthly_pattern.  monthly_avg is the groupby
mean over the month values present in the frame; its pandas mean (the
divisor of relative_strength) is the mean of those group means; months
absent from the frame enter the table with average 0 via the get default. -/
def TrafficAnalyzer.analyze_monthly_pattern (df : List ProcRow) : List MonthlyPatternRow :=
  let monthly_avg := groupMeanBy (fun r => r.month) df
  let months := (df.map (fun r => r.month)).dedup
  let m := nanmean (months.map monthly_avg)
  (List.range 12).map (fun i =>
    { month := i + 1
      average_clicks := (monthly_avg (i + 1)).getD 0
      relative_strength := ((monthly_avg (i + 1)).getD 0 / m - 1) * 100 })

structure Anomaly where
  date : CalDate
  clicks : ℚ
  z_score_sq : ℚ
deriving DecidableEq, Repr

/-- TrafficAnalyzer._detect_anomalies.  The z-scores of scipy.stats.zscore
use the population standard deviation (ddof = 0); the mask z > t is carried
in the squared form, and the z_score field of each reported anomaly is
likewise carried as its square to stay inside ℚ. -/
def TrafficAnalyzer.detect_anomalies (df : List ProcRow) (z_threshold : ℚ) :
    List Anomaly :=
  let ys := df.map (fun r => r.y)
  (df.filter (fun r => z_threshold ^ 2 * popVar ys < (r.y - mean ys) ^ 2)).map
    (fun r => { date := r.ds, clicks := r.y,
                z_score_sq := (r.y - mean ys) ^ 2 / popVar ys })

/-! TrafficDataLoader.  The file is already read (pandas read_csv is
input-layer work); load validates the presence of the required columns on
the loaded table and returns it unmodified. -/

structure Csv where
  columns : List String
  rows : List (List String)
deriving DecidableEq, Repr

def requiredColumns : List String :=
  ["Date", "Clicks", "Impressions", "CTR", "Position"]

/-- TrafficDataLoader.load, after the file has been read: the set
difference requiredColumns minus the table's columns, and a ValueError
(modelled as the error branch) exactly when it is non-empty. -/
def TrafficDataLoader.load (df : Csv) : Except String Csv :=
  let missing_columns := requiredColumns.filter (fun c => ¬ c ∈ df.columns)
  if missing_columns ≠ [] then
    .error "Missing required columns"
  else
    .ok df

/-! TrafficProphetModel and its configuration.  Prophet itself is the
external regression library: a fitted Prophet is characterised by the
parameters it was created with, its added seasonalities and the exact
two-column data it was fitted on, and every numeric output of the library
enters through a universally quantified oracle. -/

structure ProphetParams where
  growth : String
  changepoint_prior_scale : ℚ
  changepoint_range : ℚ
  yearly_seasonality : Bool
  weekly_seasonality : Bool
  daily_seasonality : Bool
  seasonality_mode : String
  interval_width : ℚ
  uncertainty_samples : ℕ
deriving DecidableEq, Repr

structure Config where
  growth : String
  changepoint_prior_scale : ℚ
  changepoint_range : ℚ
  yearly_seasonality : Bool
  weekly_seasonality : Bool
  daily_seasonality : Bool
  seasonality_mode : String
  interval_width : ℚ
  uncertainty_samples : ℕ
  monthly_seasonality_period : ℚ
  monthly_seasonality_fourier : ℕ
  validation_days : ℕ
deriving DecidableEq, Repr

/-- The dataclass defaults of Config (visualization-only fields are not
carried: no claim mentions them). -/
def defaultConfig : Config :=
  { growth := "linear"
    changepoint_prior_scale := 1 / 20
    changepoint_range := 9 / 10
    yearly_seasonality := true
    weekly_seasonality := true
    daily_seasonality := false
    seasonality_mode := "multiplicative"
    interval_width := 19 / 20
    uncertainty_samples := 1000
    monthly_seasonality_period := 61 / 2
    monthly_seasonality_fourier := 5
    validation_days := 60 }

def Config.prophet_params (c : Config) : ProphetParams :=
  { growth := c.growth
    changepoint_prior_scale := c.changepoint_prior_scale
    changepoint_range := c.changepoint_range
    yearly_seasonality := c.yearly_seasonality
    weekly_seasonality := c.weekly_seasonality
    daily_seasonality := c.daily_seasonality
    seasonality_mode := c.seasonality_mode
    interval_width := c.interval_width
    uncertainty_samples := c.uncertainty_samples }

structure Seasonality where
  name : String
  period : ℚ
  fourier_order : ℕ
deriving DecidableEq, Repr

/-- An unfitted Prophet instance: constructor parameters plus added
seasonalities. -/
structure Prophet where
  params : ProphetParams
  seasonalities : List Seasonality
deriving DecidableEq, Repr

/-- A fitted Prophet instance: the instance and the exact (ds, y) data its
fit method consumed. -/
structure FittedProphet where
  spec : Prophet
  history : List (CalDate × ℚ)
deriving DecidableEq, Repr

structure ValidationMetrics where
  mae : ℚ
  mape : ℚ
  rmse_sq : ℚ
deriving DecidableEq, Repr

/-- Machine epsilon of IEEE double precision, the denominator guard of the
sklearn mean_absolute_percentage_error. -/
def sklearnEps : ℚ := 2220446049250313 / 10 ^ 31

/-- The metric computations of TrafficProphetModel._validate, given the
yhat column of the external prediction on the test dates: mean absolute
error, sklearn mean absolute percentage error times 100, and the mean
squared error (the source reports its square root as rmse). -/
def validateMetrics (yhat ytrue : List ℚ) : ValidationMetrics :=
  { mae := mean ((yhat.zip ytrue).map (fun p => |p.1 - p.2|))
    mape := mean ((ytrue.zip yhat).map (fun p => |p.1 - p.2| / max |p.1| sklearnEps)) * 100
    rmse_sq := mean ((yhat.zip ytrue).map (fun p => (p.1 - p.2) ^ 2)) }

/-- The state of a TrafficProphetModel object: its configuration, the
fitted Prophet it holds (none before fit) and the validation metrics
dictionary (none while still empty). -/
structure TrafficProphetModel where
  config : Config
  model : Option FittedProphet
  validation_metrics : Option ValidationMetrics
deriving DecidableEq, Repr

/-- TrafficProphetModel.__init__. -/
def TrafficProphetModel.init (config : Config) : TrafficProphetModel :=
  { config := config, model := none, validation_metrics := none }

/-- TrafficProphetModel._create_model: a Prophet with the configured
parameters and the custom monthly seasonality. -/
def TrafficProphetModel.create_model (m : TrafficProphetModel) : Prophet :=
  { params := m.config.prophet_params
    seasonalities := [{ name := "monthly"
                        period := m.config.monthly_seasonality_period
                        fourier_order := m.config.monthly_seasonality_fourier }] }

/-- TrafficProphetModel._split_data.  int(len(df) * 0.8) of the source
equals the floor of 4 * n / 5 exactly (the float product of a count below
2 ^ 52 with 0.8 never crosses an integer boundary). -/
def TrafficProphetModel.split_data (m : TrafficProphetModel) (df : List ProcRow) :
    List ProcRow × List ProcRow :=
  let train_size := max (df.length - m.config.validation_days) (df.length * 4 / 5)
  (df.take train_size, df.drop train_size)

/-- The yhat column an external Prophet prediction assigns to a list of
dates. -/
def PredictOracle : Type :=
  FittedProphet → List CalDate → List ℚ

/-- TrafficProphetModel.fit: split, fit on the training prefix, validate on
the non-empty test suffix, then refit on the full history.  The oracle
supplies the yhat column of the test-set prediction of the first fitted
model. -/
def TrafficProphetModel.fit (oracle : PredictOracle) (m : TrafficProphetModel)
    (df : List ProcRow) : TrafficProphetModel :=
  let split := m.split_data df
  let train_df := split.1
  let test_df := split.2
  let model1 : FittedProphet :=
    { spec := m.create_model, history := train_df.map (fun r => (r.ds, r.y)) }
  let metrics :=
    if 0 < test_df.length then
      some (validateMetrics (oracle model1 (test_df.map (fun r => r.ds)))
        (test_df.map (fun r => r.y)))
    else m.validation_metrics
  { config := m.config
    model := some { spec := m.create_model, history := df.map (fun r => (r.ds, r.y)) }
    validation_metrics := metrics }

structure ForecastRow where
  ds : CalDate
  yhat : ℚ
  yhat_lower : ℚ
  yhat_upper : ℚ
deriving DecidableEq, Repr

/-- TrafficProphetModel.predict: the not-yet-fitted guard, then the
external future-dataframe generation and prediction, supplied by an
oracle. -/
def TrafficProphetModel.predict (forecastOracle : FittedProphet → ℕ → List ForecastRow)
    (m : TrafficProphetModel) (periods : ℕ) : Except String (List ForecastRow) :=
  match m.model with
  | none => .error "Model must be fitted before prediction"
  | some f => .ok (forecastOracle f periods)

/-- TrafficProphetModel.cross_validate: the not-yet-fitted guard, then the
external cross-validation routine, supplied by an oracle (its result shape
does not matter to any claim). -/
def TrafficProphetModel.cross_validate {A : Type}
    (cvOracle : FittedProphet → ℕ → ℕ → ℕ → A) (m : TrafficProphetModel)
    (initial_days period_days horizon_days : ℕ) : Except String A :=
  match m.model with
  | none => .error "Model must be fitted before cross-validation"
  | some f => .ok (cvOracle f initial_days period_days horizon_days)

structure PredRow where
  ds : CalDate
  predicted : ℤ
  lower_bound : ℤ
  upper_bound : ℤ
deriving DecidableEq, Repr

/-- The round-half-to-even rounding of numpy and pandas round; the astype
int conversion of the already-integral rounded value is the identity. -/
def roundHalfToEven (q : ℚ) : ℤ :=
  if q - ⌊q⌋ < 1 / 2 then ⌊q⌋
  else if 1 / 2 < q - ⌊q⌋ then ⌊q⌋ + 1
  else if ⌊q⌋ % 2 = 0 then ⌊q⌋ else ⌊q⌋ + 1

/-- The max of the ds keys of a frame (the pandas max of the ds column;
meaningful for non-empty frames). -/
def dsMax (df : List ProcRow) : ℕ :=
  (df.map (fun r => r.ds.key)).foldl max 0

/-- TrafficProphetModel.get_future_predictions: keep the forecast rows
dated strictly after the last historical date and round their yhat columns
into integer prediction bounds. -/
def TrafficProphetModel.get_future_predictions (forecast : List ForecastRow)
    (historical_df : List ProcRow) : List PredRow :=
  let max_historical_key := dsMax historical_df
  (forecast.filter (fun r => max_historical_key < r.ds.key)).map
    (fun r => { ds := r.ds
                predicted := roundHalfToEven r.yhat
                lower_bound := roundHalfToEven r.yhat_lower
                upper_bound := roundHalfToEven r.yhat_upper })

/-! Spec-side definitions, written from the words of the (amended) claims
rather than from the source, for the statements that compare the two. -/

/-- The key values of a candidate key list that actually occur in the
frame. -/
def presentKeys (key : ProcRow → ℕ) (df : List ProcRow) (keys : List ℕ) : List ℕ :=
  keys.filter (fun k => df.any (fun r => key r = k))

/-- The average of the y column over the group of rows with the given key
value. -/
def groupAvg (key : ProcRow → ℕ) (df : List ProcRow) (k : ℕ) : ℚ :=
  mean ((df.filter (fun r => key r = k)).map (fun r => r.y))

/-- The mean of the per-group averages, taken over the groups present in
the series. -/
def meanOfPresentGroupAvgs (key : ProcRow → ℕ) (df : List ProcRow) (keys : List ℕ) : ℚ :=
  mean ((presentKeys key df keys).map (groupAvg key df))

/-! Concrete sample data for witnesses and counterexamples. -/

/-- A processed row with neutral ancillary columns, for feeding the
analyzer and preprocessor entry points that only read ds and y. -/
def sampleRow (d : CalDate) (yv : ℚ) : ProcRow :=
  { Date := d, Clicks := yv, Impressions := 1, CTR := 0, Position := 1
    ds := d, y := yv, ctr := 0, position := 1
    day_of_week := d.dayofweek, day_of_month := d.day, month := d.month
    quarter := (d.month - 1) / 3 + 1, year := d.year
    is_weekend := if 5 ≤ d.dayofweek then 1 else 0
    is_month_end := if d.day = daysInMonth d.year d.month then 1 else 0
    is_month_start := if d.day = 1 then 1 else 0
    clicks_per_impression := yv, position_impact := 1 }

/-- Eight days beginning Monday 2024-01-01: the two Mondays carry 7 clicks,
the other six days 0, so the Monday group is twice as big as the others. -/
def dfC5 : List ProcRow :=
  [sampleRow ⟨2024, 1, 1⟩ 7, sampleRow ⟨2024, 1, 2⟩ 0, sampleRow ⟨2024, 1, 3⟩ 0,
   sampleRow ⟨2024, 1, 4⟩ 0, sampleRow ⟨2024, 1, 5⟩ 0, sampleRow ⟨2024, 1, 6⟩ 0,
   sampleRow ⟨2024, 1, 7⟩ 0, sampleRow ⟨2024, 1, 8⟩ 7]

/-- A single-row frame for instantiating the pattern theorems. -/
def dfC5W : List ProcRow := [sampleRow ⟨2024, 1, 1⟩ 5]

/-- Nineteen days with values 20, 0 and seventeen 10s: the extreme rows
have population z-score sqrt (19 / 2) > 3 but sample z-score exactly 3. -/
def dfC7 : List ProcRow :=
  [sampleRow ⟨2024, 1, 1⟩ 20, sampleRow ⟨2024, 1, 2⟩ 0, sampleRow ⟨2024, 1, 3⟩ 10,
   sampleRow ⟨2024, 1, 4⟩ 10, sampleRow ⟨2024, 1, 5⟩ 10, sampleRow ⟨2024, 1, 6⟩ 10,
   sampleRow ⟨2024, 1, 7⟩ 10, sampleRow ⟨2024, 1, 8⟩ 10, sampleRow ⟨2024, 1, 9⟩ 10,
   sampleRow ⟨2024, 1, 10⟩ 10, sampleRow ⟨2024, 1, 11⟩ 10, sampleRow ⟨2024, 1, 12⟩ 10,
   sampleRow ⟨2024, 1, 13⟩ 10, sampleRow ⟨2024, 1, 14⟩ 10, sampleRow ⟨2024, 1, 15⟩ 10,
   sampleRow ⟨2024, 1, 16⟩ 10, sampleRow ⟨2024, 1, 17⟩ 10, sampleRow ⟨2024, 1, 18⟩ 10,
   sampleRow ⟨2024, 1, 19⟩ 10]

/-- Eleven days with one extreme value: the first row's sample z-score
exceeds 3, so both outlier detectors flag it. -/
def dfC7W : List ProcRow :=
  [sampleRow ⟨2024, 2, 1⟩ 110, sampleRow ⟨2024, 2, 2⟩ 0, sampleRow ⟨2024, 2, 3⟩ 0,
   sampleRow ⟨2024, 2, 4⟩ 0, sampleRow ⟨2024, 2, 5⟩ 0, sampleRow ⟨2024, 2, 6⟩ 0,
   sampleRow ⟨2024, 2, 7⟩ 0, sampleRow ⟨2024, 2, 8⟩ 0, sampleRow ⟨2024, 2, 9⟩ 0,
   sampleRow ⟨2024, 2, 10⟩ 0, sampleRow ⟨2024, 2, 11⟩ 0]

/-- Two raw rows, deliberately out of date order. -/
def rawW1 : RawRow :=
  { Date := ⟨2024, 1, 2⟩, Clicks := 3, Impressions := 1, CTR := 0, Position := 1 }

def rawW2 : RawRow :=
  { Date := ⟨2024, 1, 1⟩, Clicks := 4, Impressions := 1, CTR := 0, Position := 1 }

def dfW2 : List RawRow := [rawW1, rawW2]

/-- The processed form of rawW2 (2024-01-01 is a Monday and a month
start). -/
def procRowA : ProcRow :=
  { Date := ⟨2024, 1, 1⟩, Clicks := 4, Impressions := 1, CTR := 0, Position := 1
    ds := ⟨2024, 1, 1⟩, y := 4, ctr := 0, position := 1
    day_of_week := 0, day_of_month := 1, month := 1, quarter := 1, year := 2024
    is_weekend := 0, is_month_end := 0, is_month_start := 1
    clicks_per_impression := 4, position_impact := 1 }

/-- The processed form of rawW1. -/
def procRowB : ProcRow :=
  { Date := ⟨2024, 1, 2⟩, Clicks := 3, Impressions := 1, CTR := 0, Position := 1
    ds := ⟨2024, 1, 2⟩, y := 3, ctr := 0, position := 1
    day_of_week := 1, day_of_month := 2, month := 1, quarter := 1, year := 2024
    is_weekend := 0, is_month_end := 0, is_month_start := 0
    clicks_per_impression := 3, position_impact := 1 }

/-- A base row with zero Impressions: input reaching the division-by-zero
error branch of add_features. -/
def badBase : BaseRow :=
  { Date := ⟨2024, 1, 1⟩, Clicks := 1, Impressions := 0, CTR := 0, Position := 2
    ds := ⟨2024, 1, 1⟩, y := 1, ctr := 0, position := 2 }

/-- A base row with nonzero divisors. -/
def goodBase : BaseRow :=
  { Date := ⟨2024, 1, 1⟩, Clicks := 1, Impressions := 2, CTR := 0, Position := 2
    ds := ⟨2024, 1, 1⟩, y := 1, ctr := 0, position := 2 }

/-- A five-row frame: with the default 60 validation days the split falls
back to the 80 percent prefix, leaving a one-row test suffix. -/
def dfW5 : List ProcRow :=
  [sampleRow ⟨2024, 3, 1⟩ 2, sampleRow ⟨2024, 3, 2⟩ 2, sampleRow ⟨2024, 3, 3⟩ 2,
   sampleRow ⟨2024, 3, 4⟩ 2, sampleRow ⟨2024, 3, 5⟩ 2]

/-- An oracle that predicts nothing (its values never matter to the
claims). -/
def zeroOracle : PredictOracle := fun _ _ => []

/-- A two-row forecast straddling the last historical date, with tie
fractions that exercise the half-to-even rounding. -/
def fcW : List ForecastRow :=
  [{ ds := ⟨2023, 12, 31⟩, yhat := 1 / 2, yhat_lower := 0, yhat_upper := 1 },
   { ds := ⟨2024, 1, 5⟩, yhat := 5 / 2, yhat_lower := 3 / 2, yhat_upper := 7 / 2 }]

/-- A loaded table carrying all five required columns. -/
def csvGood : Csv :=
  { columns := ["Date", "Clicks", "Impressions", "CTR", "Position", "Extra"]
    rows := [["a", "b", "c", "d", "e", "f"]] }

/-- A loaded table missing the Position column. -/
def csvBad : Csv :=
  { columns := ["Date", "Clicks", "Impressions", "CTR"], rows := [] }

/-! Helper lemmas. -/

lemma add_features_cons (r : BaseRow) (t : List BaseRow) (out : List ProcRow)
    (h : add_features (r :: t) = some out) :
    ∃ r' t', addFeaturesRow r = some r' ∧ add_features t = some t' ∧ out = r' :: t' := by
  cases hr : addFeaturesRow r with
  | none => simp [add_features, hr] at h
  | some r' =>
    cases ht : add_features t with
    | none => simp [add_features, hr, ht] at h
    | some t' =>
      refine ⟨r', t', rfl, rfl, ?_⟩
      simp [add_features, hr, ht] at h
      exact h.symm

lemma add_features_length : ∀ (l : List BaseRow) (out : List ProcRow),
    add_features l = some out → out.length = l.length
  | [], out, h => by
    simp [add_features] at h
    simp [← h]
  | r :: t, out, h => by
    obtain ⟨r', t', _, ht, rfl⟩ := add_features_cons r t out h
    simp [add_features_length t t' ht]

lemma add_features_mem : ∀ (l : List BaseRow) (out : List ProcRow),
    add_features l = some out → ∀ r' ∈ out, ∃ r ∈ l, addFeaturesRow r = some r'
  | [], out, h => by
    simp [add_features] at h
    simp [h]
  | r :: t, out, h => by
    obtain ⟨r', t', hr, ht, rfl⟩ := add_features_cons r t out h
    intro s hs
    rcases List.mem_cons.mp hs with hs | hs
    · exact ⟨r, List.mem_cons_self r t, hs ▸ hr⟩
    · obtain ⟨a, ha, hfa⟩ := add_features_mem t t' ht s hs
      exact ⟨a, List.mem_cons_of_mem r ha, hfa⟩

lemma add_features_isSome : ∀ l : List BaseRow,
    (∀ r ∈ l, (addFeaturesRow r).isSome) → (add_features l).isSome
  | [], _ => by simp [add_features]
  | r :: t, h => by
    have hr := h r (List.mem_cons_self r t)
    have ht := add_features_isSome t (fun s hs => h s (List.mem_cons_of_mem r hs))
    obtain ⟨r', hr'⟩ := Option.isSome_iff_exists.mp hr
    obtain ⟨t', ht'⟩ := Option.isSome_iff_exists.mp ht
    simp [add_features, hr', ht']

lemma addFeaturesRow_eq (r : BaseRow) (r' : ProcRow) (h : addFeaturesRow r = some r') :
    r' = { toBaseRow := r
           day_of_week := r.ds.dayofweek
           day_of_month := r.ds.day
           month := r.ds.month
           quarter := (r.ds.month - 1) / 3 + 1
           year := r.ds.year
           is_weekend := if 5 ≤ r.ds.dayofweek then 1 else 0
           is_month_end := if r.ds.day = daysInMonth r.ds.year r.ds.month then 1 else 0
           is_month_start := if r.ds.day = 1 then 1 else 0
           clicks_per_impression := r.y / r.Impressions
           position_impact := 1 / r.position } := by
  unfold addFeaturesRow at h
  split at h
  · cases h
  · exact (Option.some.injEq _ _ ▸ h).symm

lemma add_features_ds_keys : ∀ (l : List BaseRow) (out : List ProcRow),
    add_features l = some out →
      out.map (fun r => r.ds.key) = l.map (fun r => r.ds.key)
  | [], out, h => by
    simp [add_features] at h
    simp [← h]
  | r :: t, out, h => by
    obtain ⟨r', t', hr, ht, rfl⟩ := add_features_cons r t out h
    have hbase := addFeaturesRow_eq r r' hr
    simp [List.map_cons, add_features_ds_keys t t' ht, hbase]

lemma foldl_max_lt_iff : ∀ (l : List ℕ) (i k : ℕ),
    l.foldl max i < k ↔ i < k ∧ ∀ x ∈ l, x < k
  | [], i, k => by simp
  | a :: t, i, k => by
    simp only [List.foldl_cons, foldl_max_lt_iff t (max i a) k, Nat.max_lt,
      List.mem_cons]
    constructor
    · rintro ⟨⟨hi, ha⟩, ht⟩
      exact ⟨hi, fun x hx => by rcases hx with rfl | hx; exact ha; exact ht x hx⟩
    · rintro ⟨hi, hall⟩
      exact ⟨⟨hi, hall a (Or.inl rfl)⟩, fun x hx => hall x (Or.inr hx)⟩

lemma roundHalfToEven_nearest (q : ℚ) : |q - roundHalfToEven q| ≤ 1 / 2 := by
  have h0 : (⌊q⌋ : ℚ) ≤ q := Int.floor_le q
  have h1 : q < ⌊q⌋ + 1 := Int.lt_floor_add_one q
  unfold roundHalfToEven
  split
  · rename_i h
    rw [abs_of_nonneg (by linarith)]
    linarith
  · split
    · rename_i h h'
      push_cast
      rw [abs_of_nonpos (by linarith)]
      linarith
    · rename_i h h'
      have heq : q - (⌊q⌋ : ℚ) = 1 / 2 := le_antisymm (not_lt.mp h') (not_lt.mp h)
      split
      · rw [abs_of_nonneg (by linarith)]
        linarith
      · push_cast
        rw [abs_of_nonpos (by linarith)]
        linarith

lemma ssd_nonneg (l : List ℚ) : 0 ≤ ssd l := by
  apply List.sum_nonneg
  intro x hx
  obtain ⟨a, _, rfl⟩ := List.mem_map.mp hx
  positivity

lemma ssd_singleton (a : ℚ) : ssd [a] = 0 := by
  simp [ssd, mean]

lemma popVar_le_sampleVar (l : List ℚ) : popVar l ≤ sampleVar l := by
  rcases l with _ | ⟨a, _ | ⟨b, t⟩⟩
  · simp [popVar, sampleVar, ssd, mean]
  · simp [popVar, sampleVar, ssd_singleton]
  · unfold popVar sampleVar
    have hlen : (a :: b :: t).length = t.length + 2 := by simp
    rw [hlen]
    have h1 : (0 : ℚ) < ((t.length + 2 - 1 : ℕ) : ℚ) := by
      push_cast
      positivity
    gcongr
    · exact ssd_nonneg _
    · push_cast
      linarith

lemma reduceOption_map_eq_filter_map (keys : List ℕ) (p : ℕ → Bool) (f : ℕ → ℚ)
    (g : ℕ → Option ℚ) (hg : ∀ k, g k = if p k then some (f k) else none) :
    (keys.map g).reduceOption = (keys.filter p).map f := by
  induction keys with
  | nil => simp
  | cons a t ih =>
    cases hp : p a
    · simp [hg, hp, ih]
    · simp [hg, hp, ih]

/-! Claim theorems. -/

/-- C3: TrafficDataLoader.load raises ValueError (the error branch) if and
only if at least one of the columns Date, Clicks, Impressions, CTR,
Position is absent from the loaded table, and returns the table unmodified
when all five are present. -/
theorem C3_load_validates_columns (df : Csv) :
    ((∃ e, TrafficDataLoader.load df = .error e) ↔
      ∃ c ∈ requiredColumns, c ∉ df.columns) ∧
    ((∀ c ∈ requiredColumns, c ∈ df.columns) → TrafficDataLoader.load df = .ok df) := by
  unfold TrafficDataLoader.load
  constructor
  · constructor
    · rintro ⟨e, he⟩
      by_cases hf : requiredColumns.filter (fun c => ¬ c ∈ df.columns) = []
      · rw [if_neg (by simpa using hf)] at he
        cases he
      · obtain ⟨c, hc⟩ := List.exists_mem_of_ne_nil _ hf
        have hm := List.mem_filter.mp hc
        exact ⟨c, hm.1, by simpa using hm.2⟩
    · rintro ⟨c, hc, hnc⟩
      have hmem : c ∈ requiredColumns.filter (fun c => ¬ c ∈ df.columns) :=
        List.mem_filter.mpr ⟨hc, by simpa using hnc⟩
      rw [if_pos (by simpa using List.ne_nil_of_mem hmem)]
      exact ⟨_, rfl⟩
  · intro hall
    have hf : requiredColumns.filter (fun c => ¬ c ∈ df.columns) = [] :=
      List.filter_eq_nil_iff.mpr (fun c hc => by simpa using hall c hc)
    rw [if_neg (by simpa using hf)]

/-- Witness for C3 at a table that carries all five required columns. -/
theorem C3_load_validates_columns_witness :
    TrafficDataLoader.load csvGood = .ok csvGood :=
  (C3_load_validates_columns csvGood).2 (by decide)

/-- C4: predict and cross_validate answer with the not-yet-fitted
ValueError on a freshly constructed model, and after a fit both succeed
(whatever the external oracles answer). -/
theorem C4_unfitted_guard {A : Type} (cfg : Config)
    (po po2 : FittedProphet → ℕ → List ForecastRow)
    (cvo cvo2 : FittedProphet → ℕ → ℕ → ℕ → A) (oracle oracle2 : PredictOracle)
    (periods initial_days period_days horizon_days : ℕ) (df df2 : List ProcRow) :
    TrafficProphetModel.predict po (TrafficProphetModel.init cfg) periods =
      .error "Model must be fitted before prediction" ∧
    TrafficProphetModel.cross_validate cvo (TrafficProphetModel.init cfg)
      initial_days period_days horizon_days =
      .error "Model must be fitted before cross-validation" ∧
    (∃ out, TrafficProphetModel.predict po2
      ((TrafficProphetModel.init cfg).fit oracle df) periods = .ok out) ∧
    (∃ out, TrafficProphetModel.cross_validate cvo2
      ((TrafficProphetModel.init cfg).fit oracle2 df2)
      initial_days period_days horizon_days = .ok out) := by
  exact ⟨rfl, rfl, ⟨_, rfl⟩, ⟨_, rfl⟩⟩

/-- C9: the two divisions of _add_features are unguarded; if every row's
Impressions and position (the copy of Position that process assigns) is
nonzero the division-by-zero error branch of the embedding is unreachable,
and a zero divisor reaches it. -/
theorem C9_unguarded_divisions :
    (∀ l : List BaseRow, (∀ r ∈ l, r.Impressions ≠ 0 ∧ r.position ≠ 0) →
      (add_features l).isSome) ∧
    add_features [badBase] = none := by
  constructor
  · intro l hl
    apply add_features_isSome
    intro r hr
    unfold addFeaturesRow
    rw [if_neg]
    · simp
    · push_neg
      exact hl r hr
  · rfl

/-- Witness for C9 on a one-row frame with nonzero divisors. -/
theorem C9_unguarded_divisions_witness : (add_features [goodBase]).isSome :=
  C9_unguarded_divisions.1 [goodBase] (by decide)

/-- Concrete evaluation of process on the two-row frame (the sort swaps
the rows, 2024-01-01 is a Monday and a month start). -/
lemma processW2_eval : TrafficPreprocessor.process dfW2 = some [procRowA, procRowB] := by
  norm_num [TrafficPreprocessor.process, dfW2, rawW1, rawW2, baseRow, add_features,
    addFeaturesRow, List.insertionSort, List.orderedInsert, dsKeyLe, CalDate.key,
    CalDate.dayofweek, CalDate.dayOfWeekSun0, sakamotoOffset, daysInMonth, isLeapYear,
    procRowA, procRowB]

/-- C10: process (on success) returns exactly as many rows as its input,
sorted in nondecreasing ds order, and handle_outliers returns its input
rows unchanged with the flag alongside.  Both methods are functions of
their input in this embedding, which is the copy-semantics of the source:
neither reads nor writes any state besides the frame passed in. -/
theorem C10_frame_effects (df : List RawRow) (out : List ProcRow) (t : ℚ)
    (d : List ProcRow) (h : TrafficPreprocessor.process df = some out) :
    out.length = df.length ∧
    List.Sorted (fun a b : ProcRow => a.ds.key ≤ b.ds.key) out ∧
    (TrafficPreprocessor.handle_outliers d t).map (fun p => p.1) = d := by
  unfold TrafficPreprocessor.process at h
  refine ⟨?_, ?_, ?_⟩
  · rw [add_features_length _ _ h, (List.perm_insertionSort dsKeyLe _).length_eq,
      List.length_map]
  · have hkeys := add_features_ds_keys _ _ h
    have hsorted : List.Sorted dsKeyLe (List.insertionSort dsKeyLe (df.map baseRow)) :=
      List.sorted_insertionSort dsKeyLe _
    have hp : List.Pairwise (· ≤ ·)
        ((List.insertionSort dsKeyLe (df.map baseRow)).map (fun r => r.ds.key)) :=
      List.pairwise_map.mpr hsorted
    rw [← hkeys] at hp
    exact List.pairwise_map.mp hp
  · simp only [TrafficPreprocessor.handle_outliers, List.map_map]
    exact List.map_id'' (fun x => rfl) d

/-- Witness for C10 on the two-row frame. -/
theorem C10_frame_effects_witness :
    ([procRowA, procRowB].length = dfW2.length ∧
      List.Sorted (fun a b : ProcRow => a.ds.key ≤ b.ds.key) [procRowA, procRowB] ∧
      (TrafficPreprocessor.handle_outliers dfC5W 3).map (fun p => p.1) = dfC5W) :=
  C10_frame_effects dfW2 [procRowA, procRowB] 3 dfC5W processW2_eval

/-- C8: in every row of a successful process output, position_impact is
the reciprocal of the row's Position value, and is_weekend is 1 exactly on
Saturdays and Sundays and 0 otherwise. -/
theorem C8_derived_features (df : List RawRow) (out : List ProcRow)
    (h : TrafficPreprocessor.process df = some out) :
    ∀ r ∈ out, r.position_impact = 1 / r.Position ∧
      r.is_weekend = if r.ds.isSaturday ∨ r.ds.isSunday then 1 else 0 := by
  intro r hr
  unfold TrafficPreprocessor.process at h
  obtain ⟨a, ha, hfa⟩ := add_features_mem _ _ h r hr
  have ha' : a ∈ df.map baseRow := (List.perm_insertionSort dsKeyLe _).mem_iff.mp ha
  obtain ⟨raw, _, rfl⟩ := List.mem_map.mp ha'
  have heq := addFeaturesRow_eq _ _ hfa
  subst heq
  constructor
  · simp [baseRow]
  · have hlt : (baseRow raw).ds.dayofweek < 7 := Nat.mod_lt _ (by norm_num)
    have hiff : (5 ≤ (baseRow raw).ds.dayofweek) ↔
        ((baseRow raw).ds.isSaturday ∨ (baseRow raw).ds.isSunday) := by
      unfold CalDate.isSaturday CalDate.isSunday
      omega
    simp only [hiff]

/-- Witness for C8 at the first processed row. -/
theorem C8_derived_features_witness :
    procRowA.position_impact = 1 / procRowA.Position ∧
      procRowA.is_weekend = if procRowA.ds.isSaturday ∨ procRowA.ds.isSunday then 1 else 0 :=
  C8_derived_features dfW2 [procRowA, procRowB] processW2_eval procRowA
    (List.mem_cons_self _ _)

/-- C2: split_data cuts the frame into the prefix of length
max (n - validation_days) (floor of 0.8 n) and the remaining suffix, fit
computes validation metrics on the suffix exactly when it is non-empty
(from the prediction of the model fitted on the prefix), the model left
behind is fitted on the full history, and the default validation_days is
60. -/
theorem C2_fit_holdout_refit (oracle : PredictOracle) (m : TrafficProphetModel)
    (df : List ProcRow) :
    (m.split_data df).1 ++ (m.split_data df).2 = df ∧
    ((m.split_data df).1).length =
      max (df.length - m.config.validation_days) (df.length * 4 / 5) ∧
    (((m.split_data df).1).length : ℤ) =
      max ((df.length : ℤ) - (m.config.validation_days : ℤ)) (4 * (df.length : ℤ) / 5) ∧
    (m.fit oracle df).model =
      some { spec := m.create_model, history := df.map (fun r => (r.ds, r.y)) } ∧
    ((m.split_data df).2 ≠ [] →
      (m.fit oracle df).validation_metrics =
        some (validateMetrics
          (oracle { spec := m.create_model,
                    history := ((m.split_data df).1).map (fun r => (r.ds, r.y)) }
            (((m.split_data df).2).map (fun r => r.ds)))
          (((m.split_data df).2).map (fun r => r.y)))) ∧
    defaultConfig.validation_days = 60 := by
  have hts : max (df.length - m.config.validation_days) (df.length * 4 / 5) ≤ df.length := by
    apply max_le (Nat.sub_le _ _)
    omega
  have hlen : ((m.split_data df).1).length =
      max (df.length - m.config.validation_days) (df.length * 4 / 5) := by
    simp only [TrafficProphetModel.split_data, List.length_take]
    exact min_eq_left hts
  refine ⟨List.take_append_drop _ _, hlen, ?_, rfl, ?_, rfl⟩
  · rw [hlen]
    push_cast [Nat.cast_max]
    omega
  · intro hne
    have hpos : 0 < ((m.split_data df).2).length := List.length_pos.mpr hne
    simp only [TrafficProphetModel.fit, hpos, if_pos]

/-- Witness for C2: five rows under the default configuration leave a
one-row validation suffix, whose metrics are recorded. -/
theorem C2_fit_holdout_refit_witness :
    ((TrafficProphetModel.init defaultConfig).fit zeroOracle dfW5).validation_metrics =
      some (validateMetrics
        (zeroOracle { spec := (TrafficProphetModel.init defaultConfig).create_model,
                      history := (((TrafficProphetModel.init defaultConfig).split_data dfW5).1).map
                        (fun r => (r.ds, r.y)) }
          ((((TrafficProphetModel.init defaultConfig).split_data dfW5).2).map (fun r => r.ds)))
        ((((TrafficProphetModel.init defaultConfig).split_data dfW5).2).map (fun r => r.y))) :=
  (C2_fit_holdout_refit zeroOracle (TrafficProphetModel.init defaultConfig) dfW5).2.2.2.2.1
    (by decide)

/-- C1: get_future_predictions returns, in forecast order, exactly the
forecast rows dated strictly after every historical date (equivalently
after the maximum historical ds, the table being non-empty), carrying the
roundings of yhat, yhat_lower and yhat_upper; the rounding lands on a
nearest integer. -/
theorem C1_future_predictions (forecast : List ForecastRow) (hist : List ProcRow)
    (hne : hist ≠ []) :
    TrafficProphetModel.get_future_predictions forecast hist =
      (forecast.filter (fun r => hist.all (fun h => h.ds.key < r.ds.key))).map
        (fun r => { ds := r.ds, predicted := roundHalfToEven r.yhat,
                    lower_bound := roundHalfToEven r.yhat_lower,
                    upper_bound := roundHalfToEven r.yhat_upper }) ∧
    ∀ q : ℚ, |q - (roundHalfToEven q : ℚ)| ≤ 1 / 2 := by
  refine ⟨?_, roundHalfToEven_nearest⟩
  simp only [TrafficProphetModel.get_future_predictions]
  congr 1
  apply List.filter_congr
  intro r _
  have hiff : dsMax hist < r.ds.key ↔ ∀ h ∈ hist, h.ds.key < r.ds.key := by
    unfold dsMax
    rw [foldl_max_lt_iff]
    constructor
    · rintro ⟨_, hall⟩ h hh
      exact hall h.ds.key (List.mem_map.mpr ⟨h, hh, rfl⟩)
    · intro hall
      rcases hist with _ | ⟨h0, t⟩
      · exact absurd rfl hne
      · refine ⟨Nat.lt_of_le_of_lt (Nat.zero_le _) (hall h0 (List.mem_cons_self _ _)), ?_⟩
        intro x hx
        obtain ⟨h', hh', rfl⟩ := List.mem_map.mp hx
        exact hall h' hh'
  rw [Bool.eq_iff_iff]
  simp only [decide_eq_true_eq, List.all_eq_true]
  exact hiff

/-- Witness for C1 on a two-row forecast around the single historical
date. -/
theorem C1_future_predictions_witness :
    TrafficProphetModel.get_future_predictions fcW dfC5W =
      (fcW.filter (fun r => dfC5W.all (fun h => h.ds.key < r.ds.key))).map
        (fun r => { ds := r.ds, predicted := roundHalfToEven r.yhat,
                    lower_bound := roundHalfToEven r.yhat_lower,
                    upper_bound := roundHalfToEven r.yhat_upper }) :=
  (C1_future_predictions fcW dfC5W (by simp [dfC5W])).1

/-- The NaN-skipping mean of the reindexed groupby series equals the mean
of the per-group averages over the key values present in the frame. -/
lemma nanmean_eq_meanOfPresent (key : ProcRow → ℕ) (df : List ProcRow) (keys : List ℕ) :
    nanmean (keys.map (groupMeanBy key df)) = meanOfPresentGroupAvgs key df keys := by
  unfold nanmean meanOfPresentGroupAvgs presentKeys
  congr 1
  apply reduceOption_map_eq_filter_map keys (fun k => df.any (fun r => key r = k))
    (groupAvg key df) (groupMeanBy key df)
  intro k
  unfold groupMeanBy groupAvg
  by_cases hk : ∃ r ∈ df, key r = k
  · obtain ⟨r, hr, hkr⟩ := hk
    have hmem : r ∈ df.filter (fun r => key r = k) :=
      List.mem_filter.mpr ⟨hr, by simpa using hkr⟩
    have hne : (df.filter (fun r => key r = k)).map (fun r => r.y) ≠ [] := by
      simp only [ne_eq, List.map_eq_nil_iff]
      exact List.ne_nil_of_mem hmem
    have hany : df.any (fun r => key r = k) = true :=
      List.any_eq_true.mpr ⟨r, hr, by simpa using hkr⟩
    rw [if_neg hne, hany, if_pos rfl]
  · push_neg at hk
    have hnil : df.filter (fun r => key r = k) = [] :=
      List.filter_eq_nil_iff.mpr (fun r hr => by simpa using hk r hr)
    have hany : df.any (fun r => key r = k) = false := by
      rw [List.any_eq_false]
      intro r hr
      simpa using hk r hr
    rw [hnil, hany]
    simp

/-- C5 (amended): the relative_strength reported for each weekday and each
month is the group's average clicks divided by the mean of the per-group
averages over the groups present in the series (not the overall series
mean), minus 1, times 100. -/
theorem C5_amended_relative_strength (df : List ProcRow) :
    (∀ row ∈ TrafficAnalyzer.analyze_weekly_pattern df,
      row.relative_strength = row.average_clicks.map
        (fun a => (a / meanOfPresentGroupAvgs (fun r => r.ds.dayofweek) df day_order - 1)
          * 100)) ∧
    (∀ row ∈ TrafficAnalyzer.analyze_monthly_pattern df,
      row.relative_strength =
        (row.average_clicks / meanOfPresentGroupAvgs (fun r => r.month) df
          ((df.map (fun r => r.month)).dedup) - 1) * 100) := by
  constructor
  · intro row hrow
    simp only [TrafficAnalyzer.analyze_weekly_pattern] at hrow
    obtain ⟨w, _, rfl⟩ := List.mem_map.mp hrow
    simp only [nanmean_eq_meanOfPresent]
  · intro row hrow
    simp only [TrafficAnalyzer.analyze_monthly_pattern] at hrow
    obtain ⟨i, _, rfl⟩ := List.mem_map.mp hrow
    simp only [nanmean_eq_meanOfPresent]

/-- The Monday row of the weekly pattern of the one-row frame. -/
def rowC5W : WeeklyPatternRow :=
  { day := 0, average_clicks := some 5, relative_strength := some 0 }

/-- Witness for C5 (amended) at the Monday row of the one-row frame. -/
theorem C5_amended_relative_strength_witness :
    rowC5W.relative_strength = rowC5W.average_clicks.map
      (fun a => (a / meanOfPresentGroupAvgs (fun r => r.ds.dayofweek) dfC5W day_order - 1)
        * 100) :=
  (C5_amended_relative_strength dfC5W).1 rowC5W
    (by norm_num [TrafficAnalyzer.analyze_weekly_pattern, dfC5W, sampleRow, groupMeanBy,
      nanmean, mean, day_order, CalDate.dayofweek, CalDate.dayOfWeekSun0, sakamotoOffset,
      rowC5W])

/-- Counterexample to C5 as stated: on the eight-day frame the code reports
relative strength 600 for Monday (divisor: mean of the seven per-day
averages, which is 1), while the claimed formula against the overall mean
7 / 4 gives 300. -/
theorem C5_counterexample :
    (TrafficAnalyzer.analyze_weekly_pattern dfC5).head? =
      some { day := 0, average_clicks := some 7, relative_strength := some 600 } ∧
    mean (dfC5.map (fun r => r.y)) = 7 / 4 ∧
    ((7 : ℚ) / (7 / 4) - 1) * 100 = 300 ∧ ((600 : ℚ) ≠ 300) := by
  refine ⟨?_, ?_, by norm_num, by norm_num⟩
  · norm_num [TrafficAnalyzer.analyze_weekly_pattern, dfC5, sampleRow, groupMeanBy,
      nanmean, mean, day_order, CalDate.dayofweek, CalDate.dayOfWeekSun0, sakamotoOffset,
      List.cons_ne_nil]
  · norm_num [dfC5, sampleRow, mean]

/-- C6: detect_anomalies at threshold 3 returns exactly the rows whose
absolute z-score (against the population standard deviation that
scipy.stats.zscore uses) exceeds 3, in frame order, each reported with its
date, clicks and z-score; over the reals the squared criterion used here
is exactly the z-score criterion of the source. -/
theorem C6_detect_anomalies (df : List ProcRow) :
    TrafficAnalyzer.detect_anomalies df 3 =
      (df.filter (fun r => 9 * popVar (df.map (fun s => s.y)) <
          (r.y - mean (df.map (fun s => s.y))) ^ 2)).map
        (fun r => { date := r.ds, clicks := r.y,
                    z_score_sq := (r.y - mean (df.map (fun s => s.y))) ^ 2 /
                      popVar (df.map (fun s => s.y)) }) ∧
    ∀ (a v : ℝ), 0 < v → (3 < |a| / Real.sqrt v ↔ 9 * v < a ^ 2) := by
  constructor
  · have hthr : (3 : ℚ) ^ 2 = 9 := by norm_num
    simp only [TrafficAnalyzer.detect_anomalies, hthr]
  · intro a v hv
    have hs : 0 < Real.sqrt v := Real.sqrt_pos.mpr hv
    have key : 3 * Real.sqrt v < |a| ↔ 9 * v < a ^ 2 := by
      rw [← pow_lt_pow_iff_left₀ (by positivity) (abs_nonneg a) (two_ne_zero)]
      rw [mul_pow, Real.sq_sqrt hv.le, sq_abs]
      constructor
      · intro h; nlinarith
      · intro h; nlinarith
    rw [lt_div_iff₀ hs, key]

/-- Witness for C6's real-arithmetic bridge at a = 4, v = 1. -/
theorem C6_detect_anomalies_witness :
    (3 : ℝ) < |(4 : ℝ)| / Real.sqrt 1 ↔ 9 * 1 < (4 : ℝ) ^ 2 :=
  (C6_detect_anomalies []).2 4 1 (by norm_num)

/-- C7 (amended): every row handle_outliers flags (sample standard
deviation, ddof 1) is also reported by detect_anomalies (population
standard deviation, ddof 0); the converse fails, see the
counterexample. -/
theorem C7_amended_outlier_inclusion (df : List ProcRow) (p : ProcRow × Bool)
    (hp : p ∈ TrafficPreprocessor.handle_outliers df 3) (ht : p.2 = true) :
    ∃ a ∈ TrafficAnalyzer.detect_anomalies df 3, a.date = p.1.ds ∧ a.clicks = p.1.y := by
  simp only [TrafficPreprocessor.handle_outliers] at hp
  obtain ⟨r, hr, rfl⟩ := List.mem_map.mp hp
  simp only [decide_eq_true_eq] at ht
  have hvar := popVar_le_sampleVar (df.map (fun r => r.y))
  have hpop : (3 : ℚ) ^ 2 * popVar (df.map (fun r => r.y)) <
      (r.y - mean (df.map (fun r => r.y))) ^ 2 := by nlinarith
  refine ⟨{ date := r.ds, clicks := r.y,
            z_score_sq := (r.y - mean (df.map (fun r => r.y))) ^ 2 /
              popVar (df.map (fun r => r.y)) }, ?_, rfl, rfl⟩
  simp only [TrafficAnalyzer.detect_anomalies]
  apply List.mem_map.mpr
  refine ⟨r, List.mem_filter.mpr ⟨hr, ?_⟩, rfl⟩
  simpa using hpop

/-- Witness for C7 (amended) at the extreme row of the eleven-day frame,
which both detectors flag. -/
theorem C7_amended_outlier_inclusion_witness :
    ∃ a ∈ TrafficAnalyzer.detect_anomalies dfC7W 3,
      a.date = (sampleRow ⟨2024, 2, 1⟩ 110).ds ∧ a.clicks = (sampleRow ⟨2024, 2, 1⟩ 110).y :=
  C7_amended_outlier_inclusion dfC7W (sampleRow ⟨2024, 2, 1⟩ 110, true)
    (by
      simp only [TrafficPreprocessor.handle_outliers]
      apply List.mem_map.mpr
      refine ⟨sampleRow ⟨2024, 2, 1⟩ 110, by simp [dfC7W], ?_⟩
      have hc : (3 : ℚ) ^ 2 * sampleVar (dfC7W.map (fun r => r.y)) <
          ((sampleRow ⟨2024, 2, 1⟩ 110).y - mean (dfC7W.map (fun r => r.y))) ^ 2 := by
        norm_num [dfC7W, sampleRow, sampleVar, ssd, mean]
      simp [hc])
    rfl

/-- Counterexample to C7 as stated: on the nineteen-day frame the two
extreme rows have population z-score above 3 but sample z-score exactly 3,
so handle_outliers flags nothing while detect_anomalies reports both. -/
theorem C7_counterexample :
    ((TrafficPreprocessor.handle_outliers dfC7 3).filter (fun p => p.2)).length = 0 ∧
    (TrafficAnalyzer.detect_anomalies dfC7 3).length = 2 := by
  constructor
  · norm_num [TrafficPreprocessor.handle_outliers, dfC7, sampleRow, sampleVar, ssd, mean]
  · norm_num [TrafficAnalyzer.detect_anomalies, dfC7, sampleRow, popVar, ssd, mean]

end OrganicPredictor
